import Mathlib

/-!
Verification development for the sharpshooter-picks repository.

The Python sources are shallowly embedded as Lean definitions:

* `calculate_confidence` embeds `calculate_confidence` from `backend/app.py`;
* the `/api/picks` per-game processing (`get_picks`) is embedded as
  `processGame` / `get_picks` over a structured model of the odds payload;
* the `/api/props` ranking step is embedded as `selectTopProps`;
* the ingestion pipeline of `backend/scripts/ingest_historical_stats.py`
  (`process_game_data`, `store_game_stats`, the per-season loop of
  `process_player`, `process_retry_queue`, `verify_ingested_data`) is embedded
  over an explicit `IngestState` holding the database rows, the in-memory
  processed-key set, the counters and the retry queue.  Network calls and
  database commits are modelled by explicit oracles (`ApiResponse` values,
  boolean commit outcomes); exceptions in the Python code become `Option`
  results or explicit failure branches.

Machine floats in the Python code are modelled by exact rationals; `round`
(banker's rounding) is `roundHalfEven`.
-/

namespace Sharpshooter

/-! ## Confidence scoring (backend/app.py, `calculate_confidence`) -/

/-- Round to the nearest integer, ties to the even integer: the rounding used
by Python's built-in `round`. -/
def roundHalfEven (q : ℚ) : ℤ :=
  if q - ⌊q⌋ < 1/2 then ⌊q⌋
  else if 1/2 < q - ⌊q⌋ then ⌊q⌋ + 1
  else if ⌊q⌋ % 2 = 0 then ⌊q⌋ else ⌊q⌋ + 1

/-- Python's `round(q, 3)`: round to three decimal places, ties to even. -/
def round3 (q : ℚ) : ℚ := (roundHalfEven (q * 1000) : ℚ) / 1000

/-- Embedding of `calculate_confidence` (app.py 20-32) at integer odds.
`if odds > 0: probability = 100/(odds+100) else: probability = abs(odds)/(abs(odds)+100)`,
then `round(probability, 3)`.  The `except (TypeError, ZeroDivisionError)`
branch returning `None` is unreachable for integer input: both denominators
are at least 100, so the function is total here. -/
def calculate_confidence (odds : ℤ) : ℚ :=
  if odds > 0 then round3 (100 / ((odds : ℚ) + 100))
  else round3 (|(odds : ℚ)| / (|(odds : ℚ)| + 100))

/-! ## The /api/picks pipeline (backend/app.py, `get_picks`) -/

/-- One entry of a market's `outcomes` array.  `price := none` models an
outcome object without a `price` key: accessing it raises `KeyError`, which
the per-game `except` clause turns into a skip. -/
structure RawOutcome where
  name : String
  price : Option ℤ
deriving DecidableEq

/-- One entry of a bookmaker's `markets` array. -/
structure RawMarket where
  outcomes : List RawOutcome
deriving DecidableEq

/-- One entry of a game's `bookmakers` array. -/
structure RawBookmaker where
  markets : List RawMarket
deriving DecidableEq

/-- One event returned by the odds API.  An absent or empty `bookmakers`
key both fail `game.get('bookmakers')`, so both are modelled by `[]`. -/
structure RawGame where
  bookmakers : List RawBookmaker
  home_team : String
  away_team : String
  commence_time : String
deriving DecidableEq

/-- One element of the JSON array returned by `/api/picks`. -/
structure PickEntry where
  id : String
  team : String
  opponent : String
  prediction : String
  confidence : ℚ
  start_time : String
  home_odds : ℤ
  away_odds : ℤ
deriving DecidableEq

/-- Embedding of one iteration of the `for idx, game in enumerate(games)`
loop of `get_picks` (app.py 57-112).  Every abnormal path — empty
`bookmakers`, empty `markets` (IndexError, caught), a matched outcome with a
missing `price` key (KeyError, caught), or a team name not found among the
outcomes (`home_odds is None or away_odds is None`) — skips the game, i.e.
returns `none`.  For integer prices `calculate_confidence` never yields
`None`, so the `home_confidence is None` guard never fires. -/
def processGame (idx : ℕ) (game : RawGame) : Option PickEntry :=
  match game.bookmakers with
  | [] => none
  | bookmaker :: _ =>
    match bookmaker.markets with
    | [] => none
    | market :: _ =>
      let odds := market.outcomes
      match odds.find? (fun o => o.name == game.home_team) with
      | none => none
      | some homeOdd =>
        match homeOdd.price with
        | none => none
        | some home_odds =>
          match odds.find? (fun o => o.name == game.away_team) with
          | none => none
          | some awayOdd =>
            match awayOdd.price with
            | none => none
            | some away_odds =>
              let home_confidence := calculate_confidence home_odds
              let away_confidence := calculate_confidence away_odds
              let predicted_winner :=
                if home_confidence > away_confidence then game.home_team
                else game.away_team
              let confidence :=
                if home_confidence > away_confidence then home_confidence
                else away_confidence
              some { id := toString (idx + 1)
                     team := game.home_team
                     opponent := game.away_team
                     prediction := predicted_winner ++ " Win"
                     confidence := confidence
                     start_time := game.commence_time
                     home_odds := home_odds
                     away_odds := away_odds }

/-- Embedding of the whole processing loop of `get_picks`: the response body
is the list of entries of the well-formed games, in order, with `id` taken
from the position in the original array. -/
def get_picks (games : List RawGame) : List PickEntry :=
  games.enum.filterMap (fun p => processGame p.1 p.2)

/-- A game is well-formed when its processing succeeds. -/
def wellFormedGame (g : RawGame) : Bool := (processGame 0 g).isSome

/-! ## The /api/props ranking (backend/app.py, `get_player_props`) -/

/-- One element of the `processed_props` list built by `get_player_props`
(app.py 173-183). -/
structure PropEntry where
  id : String
  game : String
  start_time : String
  name : String
  player : String
  market : String
  line : ℚ
  odds : ℤ
  confidence : ℚ
deriving DecidableEq

/-- The comparator realising
`processed_props.sort(key=lambda x: x['confidence'], reverse=True)`:
Python's `list.sort` is a stable sort, and with `reverse=True` it is the
stable sort that puts higher keys first. -/
def propsLE (a b : PropEntry) : Bool := b.confidence ≤ a.confidence

/-- Embedding of app.py lines 189-193: sort the processed props by
confidence descending (stable) and return the first ten. -/
def selectTopProps (props : List PropEntry) : List PropEntry :=
  (props.mergeSort propsLE).take 10

/-! ## Ingestion data model
(backend/scripts/ingest_historical_stats.py, backend/db_models/db_schema.py) -/

/-- One row of the DataFrame returned by `LeagueGameFinder` for one player
and season: the raw game record consumed by `process_game_data`.
A stat cell holding NaN is modelled as `none`. -/
structure RawGameRecord where
  GAME_ID : String
  PLAYER_ID : ℤ
  GAME_DATE : String
  MATCHUP : String
  MIN : Option ℤ
  PTS : Option ℤ
  REB : Option ℤ
  AST : Option ℤ
  STL : Option ℤ
  BLK : Option ℤ
  TOV : Option ℤ
  PLUS_MINUS : Option ℤ
  FGM : Option ℤ
  FGA : Option ℤ
  FG3M : Option ℤ
  FG3A : Option ℤ
  FTM : Option ℤ
  FTA : Option ℤ
deriving DecidableEq

/-- The dictionary built by `process_game_data` (ingest_historical_stats.py
413-458): the values later written into a `player_stats` row. -/
structure StatsData where
  game_id : String
  player_id : ℤ
  game_date : String
  season : String
  is_home_game : Bool
  minutes_played : ℤ
  points : ℤ
  rebounds : ℤ
  assists : ℤ
  steals : ℤ
  blocks : ℤ
  turnovers : ℤ
  plus_minus : ℤ
  fg_made : ℤ
  fg_attempted : ℤ
  fg3_made : ℤ
  fg3_attempted : ℤ
  ft_made : ℤ
  ft_attempted : ℤ
deriving DecidableEq

/-- Embedding of `process_game_data`: format one raw game row, with the
validation loop replacing NaN numeric values by 0.  In the typed model the
field accesses cannot raise, so the `except` branch returning `None` is
unreachable and the function is total. -/
def process_game_data (g : RawGameRecord) (season : String) : StatsData :=
  { game_id := g.GAME_ID
    player_id := g.PLAYER_ID
    game_date := g.GAME_DATE
    season := season
    is_home_game := !(g.MATCHUP.contains '@')
    minutes_played := g.MIN.getD 0
    points := g.PTS.getD 0
    rebounds := g.REB.getD 0
    assists := g.AST.getD 0
    steals := g.STL.getD 0
    blocks := g.BLK.getD 0
    turnovers := g.TOV.getD 0
    plus_minus := g.PLUS_MINUS.getD 0
    fg_made := g.FGM.getD 0
    fg_attempted := g.FGA.getD 0
    fg3_made := g.FG3M.getD 0
    fg3_attempted := g.FG3A.getD 0
    ft_made := g.FTM.getD 0
    ft_attempted := g.FTA.getD 0 }

/-- One row of the `players` table (db_schema.py, class `Player`). -/
structure PlayerRow where
  id : ℕ
  player_id : ℤ
  full_name : String
  is_active : Bool
deriving DecidableEq

/-- One row of the `player_stats` table (db_schema.py, class `PlayerStats`).
The stat columns are nullable in the schema, hence `Option`. -/
structure PlayerStatsRow where
  id : ℕ
  game_id : String
  player_id : ℤ
  game_date : Option String
  season : Option String
  is_home_game : Option Bool
  minutes_played : Option ℤ
  points : Option ℤ
  rebounds : Option ℤ
  assists : Option ℤ
  steals : Option ℤ
  blocks : Option ℤ
  turnovers : Option ℤ
  plus_minus : Option ℤ
  fg_made : Option ℤ
  fg_attempted : Option ℤ
  fg3_made : Option ℤ
  fg3_attempted : Option ℤ
  ft_made : Option ℤ
  ft_attempted : Option ℤ
deriving DecidableEq

/-- `PlayerStats(**stats_data)`: a fresh row with primary key `rid` holding
the values of `sd`. -/
def rowOfStats (rid : ℕ) (sd : StatsData) : PlayerStatsRow :=
  { id := rid
    game_id := sd.game_id
    player_id := sd.player_id
    game_date := some sd.game_date
    season := some sd.season
    is_home_game := some sd.is_home_game
    minutes_played := some sd.minutes_played
    points := some sd.points
    rebounds := some sd.rebounds
    assists := some sd.assists
    steals := some sd.steals
    blocks := some sd.blocks
    turnovers := some sd.turnovers
    plus_minus := some sd.plus_minus
    fg_made := some sd.fg_made
    fg_attempted := some sd.fg_attempted
    fg3_made := some sd.fg3_made
    fg3_attempted := some sd.fg3_attempted
    ft_made := some sd.ft_made
    ft_attempted := some sd.ft_attempted }

/-- The update branch of `store_game_stats`:
`for key, value in stats_data.items(): if key != 'id': setattr(existing_game, key, value)` —
set every column except the primary key. -/
def setStats (r : PlayerStatsRow) (sd : StatsData) : PlayerStatsRow :=
  rowOfStats r.id sd

/-- The filter of the upsert query
`session.query(PlayerStats).filter_by(game_id=..., player_id=...)`. -/
def rowMatches (sd : StatsData) (r : PlayerStatsRow) : Bool :=
  r.game_id == sd.game_id && r.player_id == sd.player_id

/-- Update the first row matching the natural key of `sd` (what updating the
result of `.first()` does), leaving all other rows unchanged. -/
def updateFirstRow : List PlayerStatsRow → StatsData → List PlayerStatsRow
  | [], _ => []
  | r :: rs, sd =>
    if rowMatches sd r then setStats r sd :: rs else r :: updateFirstRow rs sd

/-- `f"{stats_data['game_id']}_{stats_data['player_id']}"`, the key of the
in-memory `processed_game_ids` set. -/
def gamePlayerKey (sd : StatsData) : String :=
  sd.game_id ++ "_" ++ toString sd.player_id

/-- An entry of the retry queue (ingest_historical_stats.py 627-633):
`{player_id, player_name, season, retries, last_attempt}`.  Timestamps are
modelled as integer seconds. -/
structure RetryItem where
  player_id : ℤ
  player_name : String
  season : String
  retries : ℕ
  last_attempt : ℤ
deriving DecidableEq

/-- The mutable state of an `NBADataIngestion` object that the claims are
about: the `player_stats` table, the in-memory processed-key set, the
monitoring counters and the retry queue. -/
structure IngestState where
  db : List PlayerStatsRow
  processed_game_ids : List String
  next_id : ℕ
  db_inserts : ℕ
  db_updates : ℕ
  games_processed : ℕ
  errors : ℕ
  retry_queue : List RetryItem
deriving DecidableEq

/-- Embedding of `store_game_stats` (ingest_historical_stats.py 520-576).
`commitOk` is the oracle for whether `session.commit()` succeeds; when it
raises (`commitOk = false`) the `except SQLAlchemyError` branch runs
`session.rollback()`, so the pending row change is discarded — but the
in-memory mutations made before the commit (`processed_game_ids.add`,
counter increments) are not undone, exactly as in the source. -/
def store_game_stats (self : IngestState) (sd : StatsData) (commitOk : Bool) :
    IngestState × Bool :=
  let key := gamePlayerKey sd
  if self.processed_game_ids.contains key then (self, true)
  else
    match self.db.find? (rowMatches sd) with
    | some _ =>
      if commitOk then
        ({ self with db := updateFirstRow self.db sd
                     processed_game_ids := key :: self.processed_game_ids
                     db_updates := self.db_updates + 1
                     games_processed := self.games_processed + 1 }, true)
      else
        ({ self with processed_game_ids := key :: self.processed_game_ids
                     db_updates := self.db_updates + 1
                     games_processed := self.games_processed + 1
                     errors := self.errors + 1 }, false)
    | none =>
      if commitOk then
        ({ self with db := self.db ++ [rowOfStats self.next_id sd]
                     next_id := self.next_id + 1
                     processed_game_ids := key :: self.processed_game_ids
                     db_inserts := self.db_inserts + 1
                     games_processed := self.games_processed + 1 }, true)
      else
        ({ self with processed_game_ids := key :: self.processed_game_ids
                     db_inserts := self.db_inserts + 1
                     games_processed := self.games_processed + 1
                     errors := self.errors + 1 }, false)

/-- Embedding of the per-game loop of `process_player`
(ingest_historical_stats.py 643-654): map each raw row, store it, and count
a success or an error; a failed store never stops the loop.  Returns the new
state together with the increments to `games_processed` and `errors`.
`ok` is the commit oracle passed through to `store_game_stats`. -/
def process_one_game (season : String) (ok : StatsData → Bool)
    (acc : IngestState × ℕ × ℕ) (row : RawGameRecord) : IngestState × ℕ × ℕ :=
  let sd := process_game_data row season
  let res := store_game_stats acc.1 sd (ok sd)
  if res.2 then (res.1, acc.2.1 + 1, acc.2.2) else (res.1, acc.2.1, acc.2.2 + 1)

/-- The whole per-game loop for one season's rows, starting from zero
counts. -/
def processGames (st : IngestState) (rows : List RawGameRecord) (season : String)
    (ok : StatsData → Bool) : IngestState × ℕ × ℕ :=
  rows.foldl (process_one_game season ok) (st, 0, 0)

/-- The possible outcomes of the `LeagueGameFinder` call inside
`get_player_games`. -/
inductive ApiResponse where
  | success (rows : List RawGameRecord)
  | httpError (status : ℕ)
  | timeout
  | otherError
deriving DecidableEq

/-- Embedding of `get_player_games` (ingest_historical_stats.py 334-411).
`cache` is the result of `load_from_cache` (`none` when there is no usable
cache file).  `if cached_games:` is falsy both for `None` and for an empty
cached list, so only a non-empty cache short-circuits.  A successful query
returns the rows (possibly the empty DataFrame); every error path — HTTP
error (including a 429 rate limit), timeout, or any other exception —
returns the sentinel `none`.  Logging, sleeps and `save_to_cache` are
omitted. -/
def get_player_games (cache : Option (List RawGameRecord)) (resp : ApiResponse) :
    Option (List RawGameRecord) :=
  match cache with
  | some (g :: gs) => some (g :: gs)
  | _ =>
    match resp with
    | .success rows => some rows
    | .httpError _ => none
    | .timeout => none
    | .otherError => none

/-- Embedding of the season loop of `process_player`
(ingest_historical_stats.py 620-661) for a player `pid` named `pname`:
a `none` fetch result appends a retry item with `retries := 0` and
`last_attempt := now`; an empty result is skipped; otherwise every row is
processed and stored.  Returns the state and the
(`games_processed`, `errors`) counts of this player. -/
def process_one_season (pid : ℤ) (pname : String)
    (cache : String → Option (List RawGameRecord)) (resp : String → ApiResponse)
    (ok : StatsData → Bool) (now : ℤ)
    (acc : IngestState × ℕ × ℕ) (season : String) : IngestState × ℕ × ℕ :=
  match get_player_games (cache season) (resp season) with
  | none =>
    ({ acc.1 with retry_queue := acc.1.retry_queue ++
        [{ player_id := pid, player_name := pname, season := season,
           retries := 0, last_attempt := now }] }, acc.2)
  | some [] => acc
  | some (g :: gs) =>
    let r := processGames acc.1 (g :: gs) season ok
    (r.1, acc.2.1 + r.2.1, acc.2.2 + r.2.2)

/-- The whole season loop, starting from zero counts. -/
def process_player_seasons (pid : ℤ) (pname : String) (seasons : List String)
    (cache : String → Option (List RawGameRecord)) (resp : String → ApiResponse)
    (ok : StatsData → Bool) (now : ℤ) (st : IngestState) : IngestState × ℕ × ℕ :=
  seasons.foldl (process_one_season pid pname cache resp ok now) (st, 0, 0)

/-- Embedding of `process_retry_queue` (ingest_historical_stats.py 743-832).
The queue is copied, emptied, and each item is examined in order: an item
whose cooldown `base_wait_time * 2 ** retries` has not elapsed is put back
unchanged; an item at or over `max_retries` is dropped (with a warning);
otherwise the fetch is re-attempted via the oracle `fetchRetry` (`none`
models the `except` path).  A successful fetch stores the rows; a failed
one re-appends the item with `retries + 1` and `last_attempt := now`.
The source reads `datetime.now()` once before the loop and again on each
failure; both are modelled by `now`. -/
def process_retry_item (now : ℤ) (max_retries base_wait_time : ℕ)
    (fetchRetry : RetryItem → Option (List RawGameRecord))
    (ok : StatsData → Bool) (acc : IngestState) (item : RetryItem) : IngestState :=
  if now - item.last_attempt < (base_wait_time : ℤ) * 2 ^ item.retries then
    { acc with retry_queue := acc.retry_queue ++ [item] }
  else if max_retries ≤ item.retries then
    acc
  else
    match fetchRetry item with
    | some rows => (processGames acc rows item.season ok).1
    | none =>
      { acc with retry_queue := acc.retry_queue ++
          [{ item with retries := item.retries + 1, last_attempt := now }] }

/-- The whole drain: copy the queue, reset it, fold over the copy. -/
def process_retry_queue (st : IngestState) (now : ℤ)
    (max_retries base_wait_time : ℕ)
    (fetchRetry : RetryItem → Option (List RawGameRecord))
    (ok : StatsData → Bool) : IngestState :=
  let queue_copy := st.retry_queue
  queue_copy.foldl (process_retry_item now max_retries base_wait_time fetchRetry ok)
    { st with retry_queue := [] }

/-- The behaviour of one queue item during a drain, extracted for the
statement of the `process_retry_queue` theorem. -/
def retryStep (now : ℤ) (max_retries base_wait_time : ℕ)
    (fetchRetry : RetryItem → Option (List RawGameRecord)) (item : RetryItem) :
    List RetryItem :=
  if now - item.last_attempt < (base_wait_time : ℤ) * 2 ^ item.retries then [item]
  else if max_retries ≤ item.retries then []
  else
    match fetchRetry item with
    | some _ => []
    | none => [{ item with retries := item.retries + 1, last_attempt := now }]

/-! ## Integrity verification (ingest_historical_stats.py, `verify_ingested_data`) -/

/-- The two tables read by the verification queries. -/
structure Database where
  players : List PlayerRow
  player_stats : List PlayerStatsRow
deriving DecidableEq

/-- The first verification query: every (player, season) of the join of
`players` and `player_stats` whose game count exceeds 82, reported as
(player_id, full_name, season, count). -/
def check_over_82 (db : Database) : List (ℤ × String × Option String × ℕ) :=
  db.players.flatMap (fun p =>
    (((db.player_stats.filter (fun r => r.player_id == p.player_id)).map
        (fun r => r.season)).dedup).filterMap
      (fun s =>
        let c := db.player_stats.countP
          (fun r => r.player_id == p.player_id && r.season == s)
        if 82 < c then some (p.player_id, p.full_name, s, c) else none))

/-- The second verification query: the number of stat rows with a NULL in
points, rebounds or assists. -/
def check_missing_essential (db : Database) : ℕ :=
  db.player_stats.countP
    (fun r => r.points.isNone || r.rebounds.isNone || r.assists.isNone)

/-- The third verification query: players with no associated stat row
(the LEFT JOIN with `ps.id IS NULL`). -/
def check_orphans (db : Database) : List (ℤ × String) :=
  (db.players.filter
      (fun p => db.player_stats.all (fun r => !(r.player_id == p.player_id)))).map
    (fun p => (p.player_id, p.full_name))

/-- The diagnostics produced by `verify_ingested_data`. -/
structure VerifyReport where
  over82 : List (ℤ × String × Option String × ℕ)
  missing_count : ℕ
  orphans : List (ℤ × String)
deriving DecidableEq

/-- Embedding of `verify_ingested_data` (ingest_historical_stats.py
1058-1116): three SELECT queries are executed and logged; nothing is
written, so the database component of the result is the input database. -/
def verify_ingested_data (db : Database) : Database × VerifyReport :=
  (db, { over82 := check_over_82 db
         missing_count := check_missing_essential db
         orphans := check_orphans db })

/-! ## Concrete sample data used to instantiate the theorems -/

/-- A well-formed odds event (both teams priced by the first bookmaker's
first market), tagged by its start time. -/
def goodGame (t : String) : RawGame :=
  { bookmakers :=
      [{ markets :=
          [{ outcomes :=
              [{ name := "Boston Celtics", price := some 120 },
               { name := "Miami Heat", price := some (-140) }] }] }]
    home_team := "Boston Celtics"
    away_team := "Miami Heat"
    commence_time := t }

/-- Ten events, the fifth of which has no bookmaker data. -/
def tenEvents : List RawGame :=
  [goodGame "t1", goodGame "t2", goodGame "t3", goodGame "t4",
   { bookmakers := [], home_team := "X", away_team := "Y", commence_time := "t5" },
   goodGame "t6", goodGame "t7", goodGame "t8", goodGame "t9", goodGame "t10"]

/-- A game where the away side is priced shorter (higher confidence). -/
def examplePickGame : RawGame :=
  { bookmakers :=
      [{ markets :=
          [{ outcomes :=
              [{ name := "Home FC", price := some 100 },
               { name := "Away FC", price := some (-200) }] }] }]
    home_team := "Home FC"
    away_team := "Away FC"
    commence_time := "2025-01-01T00:00:00Z" }

/-- The entry `processGame 0 examplePickGame` produces: the away side wins
the comparison with confidence `round3 (200/300) = 0.667`. -/
def examplePickEntry : PickEntry :=
  { id := "1", team := "Home FC", opponent := "Away FC",
    prediction := "Away FC Win", confidence := 0.667,
    start_time := "2025-01-01T00:00:00Z", home_odds := 100, away_odds := -200 }

/-- A game where both sides are priced identically, so both confidences are
equal. -/
def exampleTieGame : RawGame :=
  { bookmakers :=
      [{ markets :=
          [{ outcomes :=
              [{ name := "Home FC", price := some (-110) },
               { name := "Away FC", price := some (-110) }] }] }]
    home_team := "Home FC"
    away_team := "Away FC"
    commence_time := "2025-01-01T00:00:00Z" }

/-- The entry `processGame 0 exampleTieGame` produces: equal confidences
`round3 (110/210) = 0.524`, and the tie goes to the away team. -/
def exampleTieEntry : PickEntry :=
  { id := "1", team := "Home FC", opponent := "Away FC",
    prediction := "Away FC Win", confidence := 0.524,
    start_time := "2025-01-01T00:00:00Z", home_odds := -110, away_odds := -110 }

/-- A prop entry with a given id and confidence (remaining fields fixed). -/
def mkProp (i : String) (c : ℚ) : PropEntry :=
  { id := i, game := "G1", start_time := "t", name := "Over", player := "P",
    market := "Points", line := 20, odds := -110, confidence := c }

/-- The four prop outcomes of the ranking example, with confidences
0.9, 0.2, 0.9, 0.5 in encounter order. -/
def exampleProps : List PropEntry :=
  [mkProp "a" 0.9, mkProp "b" 0.2, mkProp "c" 0.9, mkProp "d" 0.5]

/-- The state of a fresh ingestion run: empty table, empty processed set,
empty retry queue. -/
def emptyIngestState : IngestState :=
  { db := [], processed_game_ids := [], next_id := 1, db_inserts := 0,
    db_updates := 0, games_processed := 0, errors := 0, retry_queue := [] }

/-- A raw game record as returned by the stats API. -/
def sampleRawGame : RawGameRecord :=
  { GAME_ID := "0022300001", PLAYER_ID := 2544, GAME_DATE := "2024-01-01",
    MATCHUP := "LAL @ BOS", MIN := some 35, PTS := some 25, REB := some 8,
    AST := some 7, STL := some 1, BLK := some 1, TOV := some 3,
    PLUS_MINUS := some 5, FGM := some 10, FGA := some 20, FG3M := some 2,
    FG3A := some 6, FTM := some 3, FTA := some 4 }

/-- A one-player, one-row database. -/
def exampleDb : Database :=
  { players := [{ id := 1, player_id := 2544, full_name := "LeBron James",
                  is_active := true }]
    player_stats := [rowOfStats 1 (process_game_data sampleRawGame "2023-24")] }

/-! ## Theorems -/

/-- C1: for every positive integer odds `o`, `calculate_confidence o`
equals `round(100/(o+100), 3)`; for every integer odds `o ≤ 0` — including
the `o = -100` boundary, handled by the same else branch — it equals
`round(abs o / (abs o + 100), 3)`; `calculate_confidence 150 = 0.4` and
`calculate_confidence (-150) = 0.6`. -/
theorem claim_C1_confidence_formula :
    (∀ o : ℤ, 0 < o →
      calculate_confidence o = round3 (100 / ((o : ℚ) + 100))) ∧
    (∀ o : ℤ, o ≤ 0 →
      calculate_confidence o = round3 (|(o : ℚ)| / (|(o : ℚ)| + 100))) ∧
    calculate_confidence 150 = 0.4 ∧
    calculate_confidence (-150) = 0.6 ∧
    calculate_confidence (-100) = 0.5 := by
  refine ⟨fun o ho => ?_, fun o ho => ?_, ?_, ?_, ?_⟩
  · simp only [calculate_confidence, if_pos ho]
  · have h : ¬ o > 0 := by omega
    simp only [calculate_confidence, if_neg h]
  · with_unfolding_all decide
  · with_unfolding_all decide
  · with_unfolding_all decide

/-- Witness for C1 at the positive odds 150. -/
theorem claim_C1_confidence_formula_witness :
    calculate_confidence 150 = round3 (100 / ((150 : ℤ) + 100 : ℚ)) :=
  claim_C1_confidence_formula.1 150 (by decide)

theorem propsLE_trans : ∀ a b c : PropEntry, propsLE a b → propsLE b c → propsLE a c := by
  intro a b c hab hbc
  simp only [propsLE, decide_eq_true_eq] at *
  exact hbc.trans hab

theorem propsLE_total : ∀ a b : PropEntry, propsLE a b || propsLE b a := by
  intro a b
  simp only [propsLE, Bool.or_eq_true, decide_eq_true_eq]
  exact le_total _ _

/-- C2: the `/api/props` response is the input list of prop outcomes sorted
by confidence descending, truncated to at most 10 entries, with equal
confidences kept in encounter order (stable sort); on confidences
`[0.9, 0.2, 0.9, 0.5]` the output order is `[0.9, 0.9, 0.5, 0.2]` with the
two 0.9 entries in their original relative order. -/
theorem claim_C2_props_ranking :
    (∀ props : List PropEntry,
      (selectTopProps props).length = min 10 props.length ∧
      (selectTopProps props).Pairwise (fun a b => b.confidence ≤ a.confidence) ∧
      ∃ full : List PropEntry, full.Perm props ∧
        full.Pairwise (fun a b => b.confidence ≤ a.confidence) ∧
        selectTopProps props = full.take 10 ∧
        ∀ c : List PropEntry, List.Sublist c props →
          c.Pairwise (fun a b => b.confidence ≤ a.confidence) → List.Sublist c full) ∧
    selectTopProps exampleProps =
      [mkProp "a" 0.9, mkProp "c" 0.9, mkProp "d" 0.5, mkProp "b" 0.2] := by
  constructor
  · intro props
    have hsorted : (props.mergeSort propsLE).Pairwise
        (fun a b => b.confidence ≤ a.confidence) := by
      refine (List.sorted_mergeSort propsLE_trans propsLE_total props).imp ?_
      intro a b hab
      simpa only [propsLE, decide_eq_true_eq] using hab
    refine ⟨?_, ?_, props.mergeSort propsLE, ?_, hsorted, rfl, ?_⟩
    · simp [selectTopProps]
    · exact hsorted.sublist (List.take_sublist _ _)
    · exact List.mergeSort_perm props propsLE
    · intro c hsub hpair
      refine List.sublist_mergeSort propsLE_trans propsLE_total ?_ hsub
      exact hpair.imp (fun h => by simpa only [propsLE, decide_eq_true_eq])
  · norm_num [selectTopProps, exampleProps, mkProp, List.mergeSort, List.merge, propsLE]

/-- Witness for C2 at the four-outcome example list. -/
theorem claim_C2_props_ranking_witness :
    (selectTopProps exampleProps).length = min 10 exampleProps.length :=
  (claim_C2_props_ranking.1 exampleProps).1

/-- C3: for every processed moneyline game, the prediction names the side
with the higher confidence and the reported confidence is that side's
confidence value. -/
theorem claim_C3_moneyline_prediction (idx : ℕ) (g : RawGame) (e : PickEntry)
    (h : processGame idx g = some e) :
    (calculate_confidence e.away_odds < calculate_confidence e.home_odds →
      e.prediction = g.home_team ++ " Win" ∧
      e.confidence = calculate_confidence e.home_odds) ∧
    (calculate_confidence e.home_odds < calculate_confidence e.away_odds →
      e.prediction = g.away_team ++ " Win" ∧
      e.confidence = calculate_confidence e.away_odds) := by
  unfold processGame at h
  split at h
  · exact Option.noConfusion h
  split at h
  · exact Option.noConfusion h
  simp only at h
  split at h
  · exact Option.noConfusion h
  split at h
  · exact Option.noConfusion h
  split at h
  · exact Option.noConfusion h
  split at h
  · exact Option.noConfusion h
  injection h with h
  subst h
  simp only [gt_iff_lt]
  refine ⟨fun hlt => ?_, fun hlt => ?_⟩
  · rw [if_pos hlt, if_pos hlt]
    exact ⟨rfl, rfl⟩
  · rw [if_neg (lt_asymm hlt), if_neg (lt_asymm hlt)]
    exact ⟨rfl, rfl⟩

set_option maxRecDepth 8192 in
/-- Witness for C3: a concrete game where the away side has the higher
confidence. -/
theorem claim_C3_moneyline_prediction_witness :
    examplePickEntry.prediction = examplePickGame.away_team ++ " Win" ∧
    examplePickEntry.confidence = calculate_confidence examplePickEntry.away_odds :=
  (claim_C3_moneyline_prediction 0 examplePickGame examplePickEntry
    (by with_unfolding_all decide)).2 (by with_unfolding_all decide)

/-- C10: when home and away confidences are exactly equal, the comparison
`home_confidence > away_confidence` is false, so the prediction is the away
team. -/
theorem claim_C10_tie_goes_to_away (idx : ℕ) (g : RawGame) (e : PickEntry)
    (h : processGame idx g = some e)
    (heq : calculate_confidence e.home_odds = calculate_confidence e.away_odds) :
    e.prediction = g.away_team ++ " Win" := by
  unfold processGame at h
  split at h
  · exact Option.noConfusion h
  split at h
  · exact Option.noConfusion h
  simp only at h
  split at h
  · exact Option.noConfusion h
  split at h
  · exact Option.noConfusion h
  split at h
  · exact Option.noConfusion h
  split at h
  · exact Option.noConfusion h
  injection h with h
  subst h
  simp only at heq ⊢
  rw [if_neg (not_lt.mpr heq.le)]

set_option maxRecDepth 8192 in
/-- Witness for C10: a game priced -110 on both sides. -/
theorem claim_C10_tie_goes_to_away_witness :
    exampleTieEntry.prediction = exampleTieGame.away_team ++ " Win" :=
  claim_C10_tie_goes_to_away 0 exampleTieGame exampleTieEntry
    (by with_unfolding_all decide) (by with_unfolding_all decide)

theorem processGame_isSome_congr (i j : ℕ) (g : RawGame) :
    (processGame i g).isSome = (processGame j g).isSome := by
  unfold processGame
  rcases g with ⟨bms, ht, aw, ct⟩
  rcases bms with _ | ⟨b, bs⟩
  · rfl
  rcases b with ⟨mkts⟩
  rcases mkts with _ | ⟨m, ms⟩
  · rfl
  simp only
  cases m.outcomes.find? (fun o => o.name == ht) with
  | none => rfl
  | some ho =>
    simp only
    cases ho.price with
    | none => rfl
    | some hp =>
      simp only
      cases m.outcomes.find? (fun o => o.name == aw) with
      | none => rfl
      | some ao =>
        simp only
        cases ao.price with
        | none => rfl
        | some ap => rfl

theorem get_picks_enumFrom_length (games : List RawGame) : ∀ i : ℕ,
    ((games.enumFrom i).filterMap (fun p => processGame p.1 p.2)).length =
      games.countP wellFormedGame := by
  induction games with
  | nil => intro i; rfl
  | cons g gs ih =>
    intro i
    have hwf : wellFormedGame g = (processGame i g).isSome :=
      processGame_isSome_congr 0 i g
    cases hg : processGame i g with
    | none =>
      rw [hg] at hwf
      simp [List.enumFrom, List.filterMap_cons, hg, List.countP_cons, hwf, ih (i + 1)]
    | some e =>
      rw [hg] at hwf
      simp [List.enumFrom, List.filterMap_cons, hg, List.countP_cons, hwf, ih (i + 1)]

set_option maxRecDepth 32768 in
/-- C4: a malformed event is skipped without failing the request — for every
input list the response has exactly one entry per well-formed event; in
particular one event without bookmaker data among ten events (the other nine
well-formed) yields exactly nine entries. -/
theorem claim_C4_malformed_event_skipped :
    (∀ games : List RawGame,
      (get_picks games).length = games.countP wellFormedGame) ∧
    tenEvents.length = 10 ∧
    tenEvents.countP wellFormedGame = 9 ∧
    (get_picks tenEvents).length = 9 := by
  refine ⟨fun games => get_picks_enumFrom_length games 0, rfl, ?_, ?_⟩
  · with_unfolding_all decide
  · with_unfolding_all decide

theorem rowMatches_rowOfStats (sd : StatsData) (n : ℕ) :
    rowMatches sd (rowOfStats n sd) = true := by
  simp [rowMatches, rowOfStats]

theorem setStats_rowOfStats (n : ℕ) (sd : StatsData) :
    setStats (rowOfStats n sd) sd = rowOfStats n sd := rfl

theorem updateFirstRow_append_of_none (sd : StatsData) (l : List PlayerStatsRow)
    (h : ∀ r ∈ l, rowMatches sd r = false) (tl : List PlayerStatsRow) :
    updateFirstRow (l ++ tl) sd = l ++ updateFirstRow tl sd := by
  induction l with
  | nil => simp
  | cons x xs ih =>
    have hx : rowMatches sd x = false := h x (by simp)
    simp only [List.cons_append, updateFirstRow, hx, Bool.false_eq_true, if_false,
      List.cons.injEq, true_and]
    exact ih (fun r hr => h r (by simp [hr]))

theorem find?_append_of_none {α : Type} {p : α → Bool} {l₁ : List α}
    (h : l₁.find? p = none) (l₂ : List α) :
    (l₁ ++ l₂).find? p = l₂.find? p := by
  induction l₁ with
  | nil => simp
  | cons x xs ih =>
    cases hx : p x with
    | true =>
      rw [List.find?_cons_of_pos _ hx] at h
      exact Option.noConfusion h
    | false =>
      rw [List.find?_cons_of_neg _ (by simp [hx])] at h
      rw [List.cons_append, List.find?_cons_of_neg _ (by simp [hx])]
      exact ih h

/-- C5: applying the row mapper `process_game_data` followed by the upsert
`store_game_stats` twice to the same raw game record — within one run
(second call short-circuits on the processed-key set) or across two runs
(second call finds the row and overwrites it with the same values) — leaves
exactly one `player_stats` row for the (player_id, game_id) pair, with the
field values of a single application. -/
theorem claim_C5_upsert_idempotent (st : IngestState) (raw : RawGameRecord)
    (season : String)
    (h0 : st.db.countP (rowMatches (process_game_data raw season)) = 0)
    (h1 : st.processed_game_ids.contains
        (gamePlayerKey (process_game_data raw season)) = false) :
    ((store_game_stats st (process_game_data raw season) true).1.db.countP
        (rowMatches (process_game_data raw season)) = 1) ∧
    ((store_game_stats st (process_game_data raw season) true).1.db =
      st.db ++ [rowOfStats st.next_id (process_game_data raw season)]) ∧
    ((store_game_stats ((store_game_stats st (process_game_data raw season) true).1)
        (process_game_data raw season) true).1 =
      (store_game_stats st (process_game_data raw season) true).1) ∧
    (∀ st2 : IngestState,
      st2.db = (store_game_stats st (process_game_data raw season) true).1.db →
      (store_game_stats st2 (process_game_data raw season) true).1.db =
        (store_game_stats st (process_game_data raw season) true).1.db) := by
  set sd := process_game_data raw season with hsd
  have hnotmem : ∀ r ∈ st.db, rowMatches sd r = false := by
    intro r hr
    have := List.countP_eq_zero.mp h0 r hr
    simpa using this
  have hfind : st.db.find? (rowMatches sd) = none :=
    List.find?_eq_none.mpr (fun r hr => by simp [hnotmem r hr])
  have h1' : gamePlayerKey sd ∉ st.processed_game_ids := by
    simpa using h1
  have hstore : store_game_stats st sd true =
      ({ st with db := st.db ++ [rowOfStats st.next_id sd]
                 next_id := st.next_id + 1
                 processed_game_ids := gamePlayerKey sd :: st.processed_game_ids
                 db_inserts := st.db_inserts + 1
                 games_processed := st.games_processed + 1 }, true) := by
    simp [store_game_stats, h1', hfind]
  refine ⟨?_, ?_, ?_, ?_⟩
  · rw [hstore]
    simp [List.countP_append, h0, rowMatches_rowOfStats]
  · rw [hstore]
  · rw [hstore]
    simp [store_game_stats]
  · intro st2 h2
    rw [hstore] at h2 ⊢
    simp only at h2
    cases hc : st2.processed_game_ids.contains (gamePlayerKey sd) with
    | true =>
      have hm : gamePlayerKey sd ∈ st2.processed_game_ids := by simpa using hc
      simp [store_game_stats, hm]
      exact h2
    | false =>
      have hm : gamePlayerKey sd ∉ st2.processed_game_ids := by simpa using hc
      have hfind2 : st2.db.find? (rowMatches sd) =
          some (rowOfStats st.next_id sd) := by
        rw [h2, find?_append_of_none hfind]
        exact List.find?_cons_of_pos _ (rowMatches_rowOfStats sd st.next_id)
      have hupd : updateFirstRow st2.db sd = st2.db := by
        rw [h2, updateFirstRow_append_of_none sd st.db hnotmem]
        simp [updateFirstRow, rowMatches_rowOfStats, setStats_rowOfStats]
      simp [store_game_stats, hm, hfind2]
      rw [hupd]
      exact h2

/-- Witness for C5: a fresh run storing one sample game. -/
theorem claim_C5_upsert_idempotent_witness :
    (store_game_stats emptyIngestState (process_game_data sampleRawGame "2023-24")
        true).1.db.countP (rowMatches (process_game_data sampleRawGame "2023-24")) = 1 :=
  (claim_C5_upsert_idempotent emptyIngestState sampleRawGame "2023-24" rfl rfl).1

theorem store_game_stats_retry_queue (st : IngestState) (sd : StatsData) (okb : Bool) :
    (store_game_stats st sd okb).1.retry_queue = st.retry_queue := by
  unfold store_game_stats
  dsimp only
  split
  · rfl
  split <;> split <;> rfl

theorem foldl_process_one_game_retry_queue (season : String) (ok : StatsData → Bool) :
    ∀ (rows : List RawGameRecord) (acc : IngestState × ℕ × ℕ),
      ((rows.foldl (process_one_game season ok) acc).1.retry_queue =
        acc.1.retry_queue) := by
  intro rows
  induction rows with
  | nil => intro acc; rfl
  | cons r rs ih =>
    intro acc
    rw [List.foldl_cons, ih]
    unfold process_one_game
    dsimp only
    split <;> exact store_game_stats_retry_queue _ _ _

theorem processGames_retry_queue (st : IngestState) (rows : List RawGameRecord)
    (season : String) (ok : StatsData → Bool) :
    (processGames st rows season ok).1.retry_queue = st.retry_queue :=
  foldl_process_one_game_retry_queue season ok rows (st, 0, 0)

theorem foldl_process_one_season_retry_queue (pid : ℤ) (pname : String)
    (cache : String → Option (List RawGameRecord)) (resp : String → ApiResponse)
    (ok : StatsData → Bool) (now : ℤ) :
    ∀ (seasons : List String) (acc : IngestState × ℕ × ℕ),
      (seasons.foldl (process_one_season pid pname cache resp ok now) acc).1.retry_queue =
        acc.1.retry_queue ++
          (seasons.filter (fun s => (get_player_games (cache s) (resp s)).isNone)).map
            (fun s => { player_id := pid, player_name := pname, season := s,
                        retries := 0, last_attempt := now }) := by
  intro seasons
  induction seasons with
  | nil => intro acc; simp
  | cons s ss ih =>
    intro acc
    rw [List.foldl_cons, ih]
    unfold process_one_season
    cases hg : get_player_games (cache s) (resp s) with
    | none => simp [hg, List.filter_cons, List.append_assoc]
    | some rows =>
      cases rows with
      | nil => simp [hg, List.filter_cons]
      | cons g gs =>
        dsimp only
        rw [processGames_retry_queue]
        simp [hg, List.filter_cons]

/-- C6: a fetch failing with an HTTP error or timeout returns the sentinel
`none`, distinct from an empty-but-successful result `some []`; for every
failed fetch the season loop appends that (player, season) pair to the
retry queue with `retries = 0`, and an empty-but-successful result is never
enqueued. -/
theorem claim_C6_fetch_failure_enqueued :
    (∀ (cache : Option (List RawGameRecord)) (resp : ApiResponse),
        (cache = none ∨ cache = some []) →
        (resp = ApiResponse.timeout ∨ ∃ s, resp = ApiResponse.httpError s) →
        get_player_games cache resp = none) ∧
    (∀ (cache : Option (List RawGameRecord)) (rows : List RawGameRecord),
        (cache = none ∨ cache = some []) →
        get_player_games cache (ApiResponse.success rows) = some rows) ∧
    (∀ (pid : ℤ) (pname : String) (seasons : List String)
        (cache : String → Option (List RawGameRecord)) (resp : String → ApiResponse)
        (ok : StatsData → Bool) (now : ℤ) (st : IngestState),
      (process_player_seasons pid pname seasons cache resp ok now st).1.retry_queue =
        st.retry_queue ++
          (seasons.filter (fun s => (get_player_games (cache s) (resp s)).isNone)).map
            (fun s => { player_id := pid, player_name := pname, season := s,
                        retries := 0, last_attempt := now })) := by
  refine ⟨?_, ?_, ?_⟩
  · rintro cache resp (rfl | rfl) (rfl | ⟨s, rfl⟩) <;> rfl
  · rintro cache rows (rfl | rfl) <;> rfl
  · intro pid pname seasons cache resp ok now st
    exact foldl_process_one_season_retry_queue pid pname cache resp ok now seasons (st, 0, 0)

/-- Witness for C6: a timeout with an empty cache yields the sentinel. -/
theorem claim_C6_fetch_failure_enqueued_witness :
    get_player_games none ApiResponse.timeout = none :=
  claim_C6_fetch_failure_enqueued.1 none ApiResponse.timeout (Or.inl rfl) (Or.inl rfl)

theorem foldl_process_retry_item_queue (now : ℤ) (maxR baseW : ℕ)
    (fetchRetry : RetryItem → Option (List RawGameRecord)) (ok : StatsData → Bool) :
    ∀ (q : List RetryItem) (acc : IngestState),
      (q.foldl (process_retry_item now maxR baseW fetchRetry ok) acc).retry_queue =
        acc.retry_queue ++ q.flatMap (retryStep now maxR baseW fetchRetry) := by
  intro q
  induction q with
  | nil => intro acc; simp
  | cons item rest ih =>
    intro acc
    rw [List.foldl_cons, ih, List.flatMap_cons]
    by_cases h1 : now - item.last_attempt < (baseW : ℤ) * 2 ^ item.retries
    · simp [process_retry_item, retryStep, h1, List.append_assoc]
    · by_cases h2 : maxR ≤ item.retries
      · simp [process_retry_item, retryStep, h1, h2]
      · cases hf : fetchRetry item with
        | some rows =>
          simp [process_retry_item, retryStep, h1, h2, hf, processGames_retry_queue]
        | none =>
          simp [process_retry_item, retryStep, h1, h2, hf, List.append_assoc]

/-- C7: draining the retry queue, each queued item is re-attempted only if
the time since its last attempt is at least `base_wait_time * 2 ^ retries`
(otherwise it is returned to the queue unchanged); an item whose retry count
has reached `max_retries` contributes nothing (dropped with a warning, never
re-attempted); a failed re-attempt re-appends the item with `retries + 1`;
and every item of the queue is processed — no failure aborts the drain. -/
theorem claim_C7_retry_queue_drain :
    ∀ (st : IngestState) (now : ℤ) (max_retries base_wait_time : ℕ)
      (fetchRetry : RetryItem → Option (List RawGameRecord)) (ok : StatsData → Bool),
      (process_retry_queue st now max_retries base_wait_time fetchRetry ok).retry_queue =
        st.retry_queue.flatMap (retryStep now max_retries base_wait_time fetchRetry) := by
  intro st now maxR baseW f ok
  unfold process_retry_queue
  rw [foldl_process_retry_item_queue]
  simp

theorem foldl_process_one_game_counts (season : String) (ok : StatsData → Bool) :
    ∀ (rows : List RawGameRecord) (acc : IngestState × ℕ × ℕ),
      (rows.foldl (process_one_game season ok) acc).2.1 +
        (rows.foldl (process_one_game season ok) acc).2.2 =
        acc.2.1 + acc.2.2 + rows.length := by
  intro rows
  induction rows with
  | nil => intro acc; simp
  | cons r rs ih =>
    intro acc
    rw [List.foldl_cons, ih]
    unfold process_one_game
    dsimp only
    split <;> dsimp only <;> simp [List.length_cons] <;> omega

/-- C8: when committing a single game row fails with a database error,
`store_game_stats` rolls the transaction back — the stored table is exactly
unchanged — and returns `False`; and the per-game loop of `process_player`
accounts every row as either a success or an error, continuing past failures
rather than aborting. -/
theorem claim_C8_db_error_rollback :
    (∀ (st : IngestState) (sd : StatsData),
        st.processed_game_ids.contains (gamePlayerKey sd) = false →
        (store_game_stats st sd false).1.db = st.db ∧
        (store_game_stats st sd false).2 = false) ∧
    (∀ (st : IngestState) (rows : List RawGameRecord) (season : String)
        (ok : StatsData → Bool),
        (processGames st rows season ok).2.1 + (processGames st rows season ok).2.2 =
          rows.length) := by
  constructor
  · intro st sd h
    have hm : gamePlayerKey sd ∉ st.processed_game_ids := by simpa using h
    cases hf : st.db.find? (rowMatches sd) <;>
      exact ⟨by simp [store_game_stats, hm, hf], by simp [store_game_stats, hm, hf]⟩
  · intro st rows season ok
    unfold processGames
    rw [foldl_process_one_game_counts]
    simp

/-- Witness for C8: a failed commit on a fresh state returns `False`. -/
theorem claim_C8_db_error_rollback_witness :
    (store_game_stats emptyIngestState (process_game_data sampleRawGame "2023-24")
        false).2 = false :=
  (claim_C8_db_error_rollback.1 emptyIngestState
    (process_game_data sampleRawGame "2023-24") rfl).2

/-- C9: the post-ingestion integrity verification is read-only: it leaves
the `players` and `player_stats` tables exactly unchanged, and the over-82
violations it reports are genuine — each reported count is the actual row
count of that (player, season) and exceeds 82 — reported, never corrected. -/
theorem claim_C9_verify_read_only :
    ∀ db : Database,
      (verify_ingested_data db).1 = db ∧
      ((verify_ingested_data db).2.over82.all
        (fun t => decide (82 < t.2.2.2) &&
          decide (t.2.2.2 = db.player_stats.countP
            (fun r => r.player_id == t.1 && r.season == t.2.2.1)))) = true := by
  intro db
  refine ⟨rfl, ?_⟩
  rw [List.all_eq_true]
  intro t ht
  simp only [verify_ingested_data, check_over_82, List.mem_flatMap,
    List.mem_filterMap] at ht
  obtain ⟨p, hp, s, hs, hif⟩ := ht
  by_cases hc : 82 < db.player_stats.countP
      (fun r => r.player_id == p.player_id && r.season == s)
  · rw [if_pos hc] at hif
    injection hif with hif
    subst hif
    simp [hc]
  · rw [if_neg hc] at hif
    exact Option.noConfusion hif

end Sharpshooter
